import Mathlib

/-!
Shallow embedding of the Asteroids game (src/main.py) and verification of
its specification.

Modelling conventions:
* Python float arithmetic is embedded as exact rational arithmetic (ℚ);
  the float literals 0.1, 0.5, 0.75, 0.99 of the source become the exact
  rationals 1/10, 1/2, 3/4, 99/100.
* pygame.math.Vector2 becomes the structure Vec2 over ℚ.
* Vector2.from_polar((1, θ)) is real trigonometry, which has no exact
  rational counterpart; it is abstracted as the function field polar of
  the environment structure Env, together with the sprite-sheet frame
  widths supplied by the external asset provider.
* random.Random is modelled as a stream of integer draws (structure Rng);
  randint lo hi maps a raw draw into the inclusive range [lo, hi].
* The length comparison of Sprite.is_circle_collide is embedded without
  the square root, as the equivalent comparison of squares; the theorem
  for claim C9 proves that this Boolean test agrees with the literal
  Euclidean-distance formulation over ℝ.
* Rendering, audio and the window loop are external collaborators and are
  omitted; only their state-relevant effects are kept.
-/

namespace Asteroids

/-- 2D vector over exact rationals, modelling pygame.math.Vector2. -/
structure Vec2 where
  x : ℚ
  y : ℚ
deriving DecidableEq, Repr

instance : Add Vec2 := ⟨fun a b => ⟨a.x + b.x, a.y + b.y⟩⟩

instance : Sub Vec2 := ⟨fun a b => ⟨a.x - b.x, a.y - b.y⟩⟩

/-- Scalar multiple of a vector (v * c in the source). -/
def Vec2.smul (v : Vec2) (c : ℚ) : Vec2 := ⟨v.x * c, v.y * c⟩

/-- Game.WIDTH, the logical canvas width. -/
def WIDTH : ℚ := 800

/-- Game.HEIGHT, the logical canvas height. -/
def HEIGHT : ℚ := 600

/-- Python modulo on exact numbers: a % b = a - b * floor (a / b); for a
positive divisor the result lies in [0, b). -/
def pymod (a b : ℚ) : ℚ := a - b * (⌊a / b⌋ : ℤ)

/-- External data the core depends on: the sprite-sheet frame widths that
the asset provider supplies (ship sheet has 2 frames, explosion sheet 24,
shot and asteroid 1 each), and the unit vector Vector2.from_polar((1, θ))
for an integer angle θ in degrees, abstracted as a function because the
embedding is over ℚ. -/
structure Env where
  shipW : ℚ
  shotW : ℚ
  astW : ℚ
  expW : ℚ
  polar : Int → Vec2

/-- State of the Sprite base class: frame geometry, position, current
frame index, rotation in degrees, velocity, wrap flag, collision radius,
dead flag, angular velocity and scale. -/
structure Sprite where
  frame_width : ℚ
  frame_count : Nat
  position : Vec2
  current_frame : Int
  rotate : Int
  velocity : Vec2
  wrap : Bool
  radius : ℚ
  is_dead : Bool
  drotate : Int
  scale : ℚ
deriving DecidableEq, Repr

/-- State effect of Sprite.create_image: when scale is not 1 the image is
rescaled and the radius is recomputed as half the truncated scaled pixel
width (the sub-surface width is the truncated frame width, as pygame Rect
truncates float sizes); the rotation branch leaves the radius unchanged. -/
def Sprite.create_image (s : Sprite) : Sprite :=
  if s.scale ≠ 1 then
    { s with radius := ((⌊((⌊s.frame_width⌋ : ℤ) : ℚ) * s.scale⌋ : ℤ) : ℚ) / 2 }
  else s

/-- Sprite.set_current_frame: clamp the index into [0, frame_count - 1]
and regenerate the image. -/
def Sprite.set_current_frame (s : Sprite) (v : Int) : Sprite :=
  ({ s with current_frame := max 0 (min ((s.frame_count : Int) - 1) v) }).create_image

/-- Sprite.set_rotate: reduce the angle modulo 360 and regenerate the
image. -/
def Sprite.set_rotate (s : Sprite) (v : Int) : Sprite :=
  ({ s with rotate := v % 360 }).create_image

/-- Sprite.set_position: toroidal wrap when the wrap flag is set,
otherwise store the vector unchanged. -/
def Sprite.set_position (s : Sprite) (v : Vec2) : Sprite :=
  if s.wrap then
    { s with position := ⟨pymod (v.x + WIDTH) WIDTH, pymod (v.y + HEIGHT) HEIGHT⟩ }
  else
    { s with position := v }

/-- Sprite.set_scale: store the scale and regenerate the image. -/
def Sprite.set_scale (s : Sprite) (v : ℚ) : Sprite :=
  ({ s with scale := v }).create_image

/-- Sprite.__init__: frame 0, no rotation, zero velocity, wrap off,
radius half the frame width, alive, no spin, scale 1, then an initial
create_image (which leaves the radius unchanged at scale 1). -/
def mkSprite (frame_width : ℚ) (frame_count : Nat) (position : Vec2) : Sprite :=
  ({ frame_width := frame_width, frame_count := frame_count, position := position,
     current_frame := 0, rotate := 0, velocity := ⟨0, 0⟩, wrap := false,
     radius := frame_width / 2, is_dead := false, drotate := 0, scale := 1 } : Sprite).create_image

/-- Sprite.is_circle_collide: the source compares the Euclidean length of
the position difference with the radius sum; over ℚ this is embedded as
the equivalent square-free test (positive radius sum and squared distance
below the squared sum). Claim C9 proves this agrees with the literal
square-root formulation over ℝ. -/
def Sprite.is_circle_collide (s other : Sprite) : Bool :=
  decide (0 < s.radius + other.radius ∧
    (s.position.x - other.position.x) ^ 2 + (s.position.y - other.position.y) ^ 2 <
      (s.radius + other.radius) ^ 2)

/-- Sprite.update: advance the position by the velocity (through the
wrapping setter), then the rotation by the angular velocity (through the
mod-360 setter). -/
def Sprite.update (s : Sprite) : Sprite :=
  (s.set_position (s.position + s.velocity)).set_rotate (s.rotate + s.drotate)

/-- Ship state: a sprite plus the thrust flag. -/
structure Ship where
  sprite : Sprite
  thrust : Bool
deriving DecidableEq, Repr

/-- Ship.__init__: a two-frame sprite with wrap enabled and thrust off. -/
def mkShip (E : Env) (position : Vec2) : Ship :=
  { sprite := { mkSprite E.shipW 2 position with wrap := true }, thrust := false }

/-- Ship.get_heading: unit vector at minus the current rotation. -/
def Ship.get_heading (E : Env) (sh : Ship) : Vec2 := E.polar (-sh.sprite.rotate)

/-- Ship.update: with thrust on, select frame 1 and add heading / 10 to
the velocity; with thrust off select frame 0; in both cases damp the
velocity by 99/100 and run the base sprite update. -/
def Ship.update (E : Env) (sh : Ship) : Ship :=
  let s :=
    if sh.thrust then
      let s1 := sh.sprite.set_current_frame 1
      { s1 with velocity := s1.velocity + (sh.get_heading E).smul (1 / 10) }
    else
      sh.sprite.set_current_frame 0
  let s2 := { s with velocity := s.velocity.smul (99 / 100) }
  { sh with sprite := s2.update }

/-- Shot state: a sprite plus the remaining time to live. -/
structure Shot where
  sprite : Sprite
  time_to_live : Nat
deriving DecidableEq, Repr

/-- Shot.MAX_TIME_TO_LIVE. -/
def Shot.MAX_TIME_TO_LIVE : Nat := 80

/-- Shot.__init__: a one-frame sprite with the given velocity, wrap
enabled, and the full time to live. -/
def mkShot (E : Env) (position velocity : Vec2) : Shot :=
  { sprite := { mkSprite E.shotW 1 position with velocity := velocity, wrap := true },
    time_to_live := Shot.MAX_TIME_TO_LIVE }

/-- Shot.update: while the time to live is positive decrement it and mark
the shot dead when it reaches 0, then run the base sprite update. -/
def Shot.update (s : Shot) : Shot :=
  let s1 :=
    if 0 < s.time_to_live then
      let t := s.time_to_live - 1
      if t = 0 then { s with time_to_live := t, sprite := { s.sprite with is_dead := true } }
      else { s with time_to_live := t }
    else s
  { s1 with sprite := s1.sprite.update }

/-- Asteroid state: just the sprite. -/
structure Asteroid where
  sprite : Sprite
deriving DecidableEq, Repr

/-- Asteroid.__init__: a one-frame sprite with the given velocity, wrap
enabled, the given spin, and the scale installed through the scale setter
(which regenerates the image and hence the radius). -/
def mkAsteroid (E : Env) (position velocity : Vec2) (drotate : Int) (scale : ℚ) : Asteroid :=
  { sprite :=
      ({ mkSprite E.astW 1 position with
           velocity := velocity, wrap := true, drotate := drotate } : Sprite).set_scale scale }

/-- Asteroid update: inherited Sprite.update. -/
def Asteroid.update (a : Asteroid) : Asteroid := { a with sprite := a.sprite.update }

/-- Explosion state: just the sprite (24 animation frames). -/
structure Explosion where
  sprite : Sprite
deriving DecidableEq, Repr

/-- Explosion.__init__: a 24-frame sprite at the given position. -/
def mkExplosion (E : Env) (position : Vec2) : Explosion :=
  { sprite := mkSprite E.expW 24 position }

/-- Explosion.update: advance the frame (through the clamping setter),
mark dead when the stored frame equals 23, then run the base sprite
update. -/
def Explosion.update (e : Explosion) : Explosion :=
  let s := e.sprite.set_current_frame (e.sprite.current_frame + 1)
  let s1 := if s.current_frame = 23 then { s with is_dead := true } else s
  { sprite := s1.update }

/-- Model of random.Random: a stream of raw integer draws plus the index
of the next draw. -/
structure Rng where
  ints : Nat → Int
  idx : Nat

/-- randint lo hi: a value in the inclusive range [lo, hi], consuming one
raw draw. -/
def Rng.randint (g : Rng) (lo hi : Int) : Int × Rng :=
  (lo + g.ints g.idx % (hi - lo + 1), { g with idx := g.idx + 1 })

/-- Manager.update on the collection: update every object, then drop the
dead ones. The source iterates backward in place removing dead objects as
it goes; since each update touches only its own object, that loop is the
same as updating all objects and then filtering out the dead. -/
def reap {α : Type} (upd : α → α) (deadf : α → Bool) (l : List α) : List α :=
  (l.map upd).filter fun a => !deadf a

/-- ShotManager state: the shot collection and the firing cooldown. -/
structure ShotManager where
  objects : List Shot
  shot_delay : Nat
deriving DecidableEq, Repr

/-- ShotManager.MAX_SHOT_DELAY. -/
def ShotManager.MAX_SHOT_DELAY : Nat := 15

/-- ShotManager.update: decrement a positive cooldown, then the generic
manager update of the collection. -/
def ShotManager.update (m : ShotManager) : ShotManager :=
  { shot_delay := if 0 < m.shot_delay then m.shot_delay - 1 else m.shot_delay,
    objects := reap Shot.update (fun s => s.sprite.is_dead) m.objects }

/-- ShotManager.add_shot: append a fresh shot and reset the cooldown when
the cooldown is 0, otherwise do nothing. -/
def ShotManager.add_shot (E : Env) (m : ShotManager) (position velocity : Vec2) : ShotManager :=
  if m.shot_delay = 0 then
    { objects := m.objects ++ [mkShot E position velocity],
      shot_delay := ShotManager.MAX_SHOT_DELAY }
  else m

/-- AsteroidManager state: the asteroid collection and the random
generator. -/
structure AsteroidManager where
  objects : List Asteroid
  rnd : Rng

/-- AsteroidManager update: the generic manager update. -/
def AsteroidManager.update (m : AsteroidManager) : AsteroidManager :=
  { m with objects := reap Asteroid.update (fun a => a.sprite.is_dead) m.objects }

/-- AsteroidManager.add_asteroid: when no position is given draw one
uniformly with integer coordinates in [0, 800] x [0, 600]; draw a heading
angle in [0, 360] and a spin in [-10, 10]; append the new asteroid. -/
def AsteroidManager.add_asteroid (E : Env) (m : AsteroidManager) (scale : ℚ)
    (pos? : Option Vec2) : AsteroidManager :=
  let pg : Vec2 × Rng :=
    match pos? with
    | none =>
        let pr1 := m.rnd.randint 0 800
        let pr2 := pr1.2.randint 0 600
        (⟨(pr1.1 : ℚ), (pr2.1 : ℚ)⟩, pr2.2)
    | some p => (p, m.rnd)
  let ar := pg.2.randint 0 360
  let vel := E.polar ar.1
  let rr := ar.2.randint (-10) 10
  { objects := m.objects ++ [mkAsteroid E pg.1 vel rr.1 scale], rnd := rr.2 }

/-- Helper for add_asteroids: spawn n full-scale asteroids at random
positions. -/
def AsteroidManager.add_asteroidsN (E : Env) : Nat → AsteroidManager → AsteroidManager
  | 0, m => m
  | n + 1, m => AsteroidManager.add_asteroidsN E n (m.add_asteroid E 1 none)

/-- AsteroidManager.add_asteroids: range num iterations of add_asteroid
with scale 1 (no iterations when num is not positive). -/
def AsteroidManager.add_asteroids (E : Env) (m : AsteroidManager) (num : Int) : AsteroidManager :=
  AsteroidManager.add_asteroidsN E num.toNat m

/-- ExplosionManager state: the explosion collection. -/
structure ExplosionManager where
  objects : List Explosion
deriving DecidableEq, Repr

/-- ExplosionManager update: the generic manager update. -/
def ExplosionManager.update (m : ExplosionManager) : ExplosionManager :=
  { objects := reap Explosion.update (fun e => e.sprite.is_dead) m.objects }

/-- ExplosionManager.add_explosion: append a fresh explosion at the given
position. -/
def ExplosionManager.add_explosion (E : Env) (m : ExplosionManager) (position : Vec2) :
    ExplosionManager :=
  { objects := m.objects ++ [mkExplosion E position] }

/-- Game state tag: Game.GAME_MENU or Game.GAME_PLAY. -/
inductive GState where
  | Menu : GState
  | Play : GState
deriving DecidableEq, Repr

/-- Snapshot of the key states polled each tick. -/
structure Keys where
  space : Bool
  left : Bool
  right : Bool
  up : Bool
  lctrl : Bool
deriving DecidableEq, Repr

/-- Game.TEXT_WAIT. -/
def TEXT_WAIT : Nat := 30

/-- Game.MAX_RESPAWN_TIME. -/
def MAX_RESPAWN_TIME : Nat := 250

/-- Whole-game state: the ship, the three managers, the state tag and the
bookkeeping counters of the Game class. -/
structure Game where
  ship : Ship
  shot_manager : ShotManager
  asteroid_manager : AsteroidManager
  explosion_manager : ExplosionManager
  game_state : GState
  text_visible : Bool
  text_blink : Nat
  level : Int
  lives : Int
  score : Int
  respawn_time : Nat

/-- Number of live shots in the collection; only used to bound the fuel
of the collision loop. -/
def liveShots (g : Game) : Nat :=
  g.shot_manager.objects.countP fun s => !s.sprite.is_dead

/-- Body of the inner shot loop of Game.chk_collisions for asteroid index
i and shot index j: when both objects exist, are not dead, and the shot
collides with the asteroid, mark both dead, spawn an explosion at the
asteroid position, add 1000 to the score, and when the asteroid scale is
above 1/2 append two children at the same position with scale 3/4 for a
scale-1 parent and 1/2 otherwise. -/
def hitPair (E : Env) (g : Game) (i j : Nat) : Game :=
  match g.asteroid_manager.objects[i]?, g.shot_manager.objects[j]? with
  | some a, some sh =>
      if !a.sprite.is_dead && !sh.sprite.is_dead && sh.sprite.is_circle_collide a.sprite then
        let g1 : Game :=
          { g with
            shot_manager := { g.shot_manager with
              objects := g.shot_manager.objects.set j
                { sh with sprite := { sh.sprite with is_dead := true } } },
            asteroid_manager := { g.asteroid_manager with
              objects := g.asteroid_manager.objects.set i
                { a with sprite := { a.sprite with is_dead := true } } },
            explosion_manager := g.explosion_manager.add_explosion E a.sprite.position,
            score := g.score + 1000 }
        if 1 / 2 < a.sprite.scale then
          let c : ℚ := if a.sprite.scale = 1 then 3 / 4 else 1 / 2
          let am1 := g1.asteroid_manager.add_asteroid E c (some a.sprite.position)
          let am2 := am1.add_asteroid E c (some a.sprite.position)
          { g1 with asteroid_manager := am2 }
        else g1
      else g
  | _, _ => g

/-- Inner loop of Game.chk_collisions over the shot list for asteroid
index i: n is the number of shot indices still to visit starting at j.
hitPair never changes the length of the shot list, so running it with
n = length and j = 0 visits exactly the indices of the source loop. -/
def shotLoopAux (E : Env) (i : Nat) : Nat → Nat → Game → Game
  | 0, _, g => g
  | n + 1, j, g => shotLoopAux E i n (j + 1) (hitPair E g i j)

/-- Full inner shot loop for asteroid index i. -/
def shotLoop (E : Env) (g : Game) (i : Nat) : Game :=
  shotLoopAux E i g.shot_manager.objects.length 0 g

/-- Ship check of Game.chk_collisions for asteroid index i: when the
asteroid exists and neither it nor the ship is dead and they collide,
decrement the lives, kill the ship, clear the thrust, spawn an explosion
at the ship position, and either return to the menu (lives now 0) or
start the respawn timer. -/
def shipCheck (E : Env) (g : Game) (i : Nat) : Game :=
  match g.asteroid_manager.objects[i]? with
  | some a =>
      if !a.sprite.is_dead && !g.ship.sprite.is_dead &&
          g.ship.sprite.is_circle_collide a.sprite then
        let g1 : Game :=
          { g with
            lives := g.lives - 1,
            ship := { sprite := { g.ship.sprite with is_dead := true }, thrust := false },
            explosion_manager := g.explosion_manager.add_explosion E g.ship.sprite.position }
        if g1.lives = 0 then { g1 with game_state := GState.Menu }
        else { g1 with respawn_time := MAX_RESPAWN_TIME }
      else g
  | none => g

/-- One iteration of the outer loop of Game.chk_collisions: all shot
collisions for asteroid index i, then the ship check on the same index. -/
def processAsteroid (E : Env) (g : Game) (i : Nat) : Game :=
  shipCheck E (shotLoop E g i) i

/-- Outer loop of Game.chk_collisions with explicit fuel. The Python for
statement iterates by increasing index over a list that grows when
asteroids split, stopping as soon as the index reaches the current
length; each iteration here consumes one unit of fuel. The theorem
chkLoopF_fuel_stable below shows that any fuel at least
2 * live shots + asteroid count - i gives the same result, so the fuel
chosen in Game.chk_collisions always lets the loop exit through its
index-bound test exactly as the source loop does. -/
def chkLoopF (E : Env) : Nat → Game → Nat → Game
  | 0, g, _ => g
  | n + 1, g, i =>
      if i < g.asteroid_manager.objects.length then
        chkLoopF E n (processAsteroid E g i) (i + 1)
      else g

/-- Game.chk_collisions: run the outer loop from index 0. Each split
consumes one live shot and appends two asteroids, so the number of outer
iterations never exceeds the initial asteroid count plus twice the shot
count. -/
def Game.chk_collisions (E : Env) (g : Game) : Game :=
  chkLoopF E (2 * g.shot_manager.objects.length + g.asteroid_manager.objects.length) g 0

/-- Game.restart: center and revive the ship, clear the asteroids and
spawn 5 full-scale ones, set level 1, lives 3, score 0, and switch to
playing. -/
def Game.restart (E : Env) (g : Game) : Game :=
  { g with
    ship := { g.ship with
      sprite := { g.ship.sprite.set_position ⟨WIDTH / 2, HEIGHT / 2⟩ with is_dead := false } },
    asteroid_manager := AsteroidManager.add_asteroids E { g.asteroid_manager with objects := [] } 5,
    level := 1, lives := 3, score := 0, game_state := GState.Play }

/-- Text blink-timer handling in the menu branch of Game.update. -/
def menuBlink (g : Game) : Game :=
  if 0 < g.text_blink then { g with text_blink := g.text_blink - 1 }
  else { g with text_blink := TEXT_WAIT, text_visible := !g.text_visible }

/-- Respawn-timer handling in the playing branch of Game.update: while
the timer is positive decrement it, and on the tick it reaches 0 revive
the ship and place it at the screen center (through the wrapping position
setter). -/
def respawnStep (g : Game) : Game :=
  if 0 < g.respawn_time then
    let g1 := { g with respawn_time := g.respawn_time - 1 }
    if g1.respawn_time = 0 then
      { g1 with ship := { g1.ship with
          sprite := ({ g1.ship.sprite with is_dead := false } : Sprite).set_position
            ⟨WIDTH / 2, HEIGHT / 2⟩ } }
    else g1
  else g

/-- State-dependent input branch of Game.update: in the menu, an optional
restart on space followed by the blink timer; while playing, rotation
input, the thrust flag, an optional fire attempt, then the respawn
timer. -/
def Game.branchStep (E : Env) (keys : Keys) (g : Game) : Game :=
  match g.game_state with
  | GState.Menu =>
      let g1 := if keys.space then g.restart E else g
      menuBlink g1
  | GState.Play =>
      let g1 :=
        if keys.left then
          { g with ship := { g.ship with
              sprite := g.ship.sprite.set_rotate (g.ship.sprite.rotate + 5) } }
        else g
      let g2 :=
        if keys.right then
          { g1 with ship := { g1.ship with
              sprite := g1.ship.sprite.set_rotate (g1.ship.sprite.rotate - 5) } }
        else g1
      let g3 := { g2 with ship := { g2.ship with thrust := keys.up } }
      let g4 :=
        if keys.lctrl then
          let hd := g3.ship.get_heading E
          let sm := g3.shot_manager.add_shot E
            (g3.ship.sprite.position + hd.smul g3.ship.sprite.radius) (hd.smul 3)
          { g3 with shot_manager := sm }
        else g3
      respawnStep g4

/-- Managers part of Game.update, shared by both state branches: ship
update, collision resolution, then the three manager updates. -/
def Game.runManagers (E : Env) (g : Game) : Game :=
  let g1 := { g with ship := g.ship.update E }
  let g2 := g1.chk_collisions E
  let g3 := { g2 with shot_manager := g2.shot_manager.update }
  let g4 := { g3 with asteroid_manager := g3.asteroid_manager.update }
  { g4 with explosion_manager := g4.explosion_manager.update }

/-- Level-clear check at the end of Game.update: with the asteroid
collection empty, increment the level and spawn 3 + level * 2 full-scale
asteroids (with the incremented level). -/
def levelCheck (E : Env) (g : Game) : Game :=
  if g.asteroid_manager.objects.length = 0 then
    let am := g.asteroid_manager.add_asteroids E (3 + (g.level + 1) * 2)
    { g with level := g.level + 1, asteroid_manager := am }
  else g

/-- Game.update for one tick: the state-dependent input branch, then the
ship update, collision resolution, manager updates and level-clear check,
which run regardless of the game state. -/
def Game.update (E : Env) (keys : Keys) (g : Game) : Game :=
  levelCheck E (Game.runManagers E (Game.branchStep E keys g))

/-- Concrete environment for witnesses: plausible sheet widths and the
east-pointing unit vector for every angle. -/
def E0 : Env :=
  { shipW := 90, shotW := 10, astW := 90, expW := 128, polar := fun _ => ⟨1, 0⟩ }

/-- Concrete random stream for witnesses: every raw draw is 0. -/
def rng0 : Rng := { ints := fun _ => 0, idx := 0 }

/-- Key snapshot with no key pressed. -/
def keys0 : Keys := ⟨false, false, false, false, false⟩

/-- Dead ship at the canvas center, like the ship at program start. -/
def deadShip0 : Ship :=
  { mkShip E0 ⟨400, 300⟩ with
      sprite := { (mkShip E0 ⟨400, 300⟩).sprite with is_dead := true } }

/-- Full-scale asteroid at (100, 100) for witnesses. -/
def ast1 : Asteroid := mkAsteroid E0 ⟨100, 100⟩ ⟨1, 0⟩ 0 1

/-- Smallest-tier asteroid (scale 1/2) at (100, 100) for witnesses. -/
def astHalf : Asteroid := mkAsteroid E0 ⟨100, 100⟩ ⟨1, 0⟩ 0 (1 / 2)

/-- Motionless live shot at (100, 100), overlapping ast1. -/
def shot1 : Shot := mkShot E0 ⟨100, 100⟩ ⟨0, 0⟩

/-- Menu-state game with one live shot overlapping one full asteroid and
a dead ship. -/
def gMenuShot : Game :=
  { ship := deadShip0
    shot_manager := { objects := [shot1], shot_delay := 0 }
    asteroid_manager := { objects := [ast1], rnd := rng0 }
    explosion_manager := { objects := [] }
    game_state := GState.Menu
    text_visible := true
    text_blink := 30
    level := 1
    lives := 3
    score := 0
    respawn_time := 0 }

/-- Menu-state game with no asteroids, no shots and level 0, like the
state right after program start. -/
def gMenuEmpty : Game :=
  { gMenuShot with
      shot_manager := { objects := [], shot_delay := 0 }
      asteroid_manager := { objects := [], rnd := rng0 }
      level := 0 }

/-- Playing-state game with a live ship overlapping a full asteroid and
no shots. -/
def gShipHit : Game :=
  { gMenuShot with
      ship := mkShip E0 ⟨100, 100⟩
      shot_manager := { objects := [], shot_delay := 0 }
      game_state := GState.Play }

/-- Playing-state game used for claim C3: a live shot and the live ship
both overlap the same smallest-tier asteroid. -/
def gBoth : Game :=
  { gMenuShot with
      ship := mkShip E0 ⟨100, 100⟩
      asteroid_manager := { objects := [astHalf], rnd := rng0 }
      game_state := GState.Play }

/-- Menu-state game with one live shot overlapping one smallest-tier
asteroid and a dead ship, used for claim C10. -/
def gMenuHalf : Game :=
  { gMenuShot with asteroid_manager := { objects := [astHalf], rnd := rng0 } }

/-- gMenuHalf after its menu branch (one blink-timer tick). -/
def gHalfBranch : Game := { gMenuHalf with text_blink := 29 }

/-- gHalfBranch after the ship update. -/
def gHalfMid : Game := { gHalfBranch with ship := Ship.update E0 gHalfBranch.ship }

/-- The witness shot marked dead. -/
def deadShot1 : Shot := { shot1 with sprite := { shot1.sprite with is_dead := true } }

/-- The witness smallest-tier asteroid marked dead. -/
def deadAstHalf : Asteroid := { astHalf with sprite := { astHalf.sprite with is_dead := true } }

/-- gHalfMid after the shot-asteroid collision of its only pair. -/
def gHalfHit : Game :=
  { gHalfMid with
      shot_manager := { gHalfMid.shot_manager with
        objects := gHalfMid.shot_manager.objects.set 0 deadShot1 }
      asteroid_manager := { gHalfMid.asteroid_manager with
        objects := gHalfMid.asteroid_manager.objects.set 0 deadAstHalf }
      explosion_manager :=
        ExplosionManager.add_explosion E0 gHalfMid.explosion_manager astHalf.sprite.position
      score := gHalfMid.score + 1000 }

/-- gHalfHit after the three manager updates. -/
def gHalfEnd : Game :=
  { gHalfHit with
      shot_manager := ShotManager.update gHalfHit.shot_manager
      asteroid_manager := AsteroidManager.update gHalfHit.asteroid_manager
      explosion_manager := ExplosionManager.update gHalfHit.explosion_manager }

/-- One tick of the firing scenario of claim C5: a fire attempt (the key
held every tick) followed by the manager update, as in Game.update. -/
def fireTick (E : Env) (m : ShotManager) : ShotManager :=
  (m.add_shot E ⟨0, 0⟩ ⟨0, 0⟩).update

/-- Empty shot manager with cold cooldown. -/
def shotMgr0 : ShotManager := { objects := [], shot_delay := 0 }

/-- Empty shot manager with a warm cooldown of 7 ticks. -/
def shotMgr7 : ShotManager := { objects := [], shot_delay := 7 }

/-!  Preservation lemmas: create_image touches at most the radius, the
setters touch only their own field (plus the radius through
create_image), and the sprite update touches only position and
rotation. -/

@[simp]
theorem Sprite.create_image_is_dead (s : Sprite) : s.create_image.is_dead = s.is_dead := by
  unfold Sprite.create_image; split <;> rfl

@[simp]
theorem Sprite.create_image_position (s : Sprite) : s.create_image.position = s.position := by
  unfold Sprite.create_image; split <;> rfl

@[simp]
theorem Sprite.create_image_scale (s : Sprite) : s.create_image.scale = s.scale := by
  unfold Sprite.create_image; split <;> rfl

@[simp]
theorem Sprite.create_image_current_frame (s : Sprite) :
    s.create_image.current_frame = s.current_frame := by
  unfold Sprite.create_image; split <;> rfl

@[simp]
theorem Sprite.create_image_frame_count (s : Sprite) :
    s.create_image.frame_count = s.frame_count := by
  unfold Sprite.create_image; split <;> rfl

@[simp]
theorem Sprite.create_image_velocity (s : Sprite) : s.create_image.velocity = s.velocity := by
  unfold Sprite.create_image; split <;> rfl

@[simp]
theorem Sprite.create_image_wrap (s : Sprite) : s.create_image.wrap = s.wrap := by
  unfold Sprite.create_image; split <;> rfl

@[simp]
theorem Sprite.create_image_rotate (s : Sprite) : s.create_image.rotate = s.rotate := by
  unfold Sprite.create_image; split <;> rfl

@[simp]
theorem Sprite.create_image_frame_width (s : Sprite) :
    s.create_image.frame_width = s.frame_width := by
  unfold Sprite.create_image; split <;> rfl

@[simp]
theorem Sprite.create_image_drotate (s : Sprite) : s.create_image.drotate = s.drotate := by
  unfold Sprite.create_image; split <;> rfl

@[simp]
theorem Sprite.set_position_is_dead (s : Sprite) (v : Vec2) :
    (s.set_position v).is_dead = s.is_dead := by
  unfold Sprite.set_position; split <;> rfl

@[simp]
theorem Sprite.set_position_current_frame (s : Sprite) (v : Vec2) :
    (s.set_position v).current_frame = s.current_frame := by
  unfold Sprite.set_position; split <;> rfl

@[simp]
theorem Sprite.set_position_scale (s : Sprite) (v : Vec2) :
    (s.set_position v).scale = s.scale := by
  unfold Sprite.set_position; split <;> rfl

@[simp]
theorem Sprite.set_position_frame_count (s : Sprite) (v : Vec2) :
    (s.set_position v).frame_count = s.frame_count := by
  unfold Sprite.set_position; split <;> rfl

@[simp]
theorem Sprite.set_position_rotate (s : Sprite) (v : Vec2) :
    (s.set_position v).rotate = s.rotate := by
  unfold Sprite.set_position; split <;> rfl

@[simp]
theorem Sprite.set_rotate_is_dead (s : Sprite) (v : Int) :
    (s.set_rotate v).is_dead = s.is_dead := by
  unfold Sprite.set_rotate; simp

@[simp]
theorem Sprite.set_rotate_position (s : Sprite) (v : Int) :
    (s.set_rotate v).position = s.position := by
  unfold Sprite.set_rotate; simp

@[simp]
theorem Sprite.set_rotate_current_frame (s : Sprite) (v : Int) :
    (s.set_rotate v).current_frame = s.current_frame := by
  unfold Sprite.set_rotate; simp

@[simp]
theorem Sprite.set_rotate_scale (s : Sprite) (v : Int) :
    (s.set_rotate v).scale = s.scale := by
  unfold Sprite.set_rotate; simp

@[simp]
theorem Sprite.set_rotate_frame_count (s : Sprite) (v : Int) :
    (s.set_rotate v).frame_count = s.frame_count := by
  unfold Sprite.set_rotate; simp

@[simp]
theorem Sprite.set_current_frame_is_dead (s : Sprite) (v : Int) :
    (s.set_current_frame v).is_dead = s.is_dead := by
  unfold Sprite.set_current_frame; simp

@[simp]
theorem Sprite.set_current_frame_position (s : Sprite) (v : Int) :
    (s.set_current_frame v).position = s.position := by
  unfold Sprite.set_current_frame; simp

@[simp]
theorem Sprite.set_current_frame_scale (s : Sprite) (v : Int) :
    (s.set_current_frame v).scale = s.scale := by
  unfold Sprite.set_current_frame; simp

@[simp]
theorem Sprite.set_current_frame_frame_count (s : Sprite) (v : Int) :
    (s.set_current_frame v).frame_count = s.frame_count := by
  unfold Sprite.set_current_frame; simp

@[simp]
theorem Sprite.set_current_frame_value (s : Sprite) (v : Int) :
    (s.set_current_frame v).current_frame = max 0 (min ((s.frame_count : Int) - 1) v) := by
  unfold Sprite.set_current_frame; simp

@[simp]
theorem Sprite.set_scale_scale (s : Sprite) (v : ℚ) : (s.set_scale v).scale = v := by
  unfold Sprite.set_scale; simp

@[simp]
theorem Sprite.set_scale_position (s : Sprite) (v : ℚ) :
    (s.set_scale v).position = s.position := by
  unfold Sprite.set_scale; simp

@[simp]
theorem Sprite.set_scale_is_dead (s : Sprite) (v : ℚ) :
    (s.set_scale v).is_dead = s.is_dead := by
  unfold Sprite.set_scale; simp

@[simp]
theorem Sprite.update_is_dead (s : Sprite) : s.update.is_dead = s.is_dead := by
  unfold Sprite.update; simp

@[simp]
theorem Sprite.update_current_frame (s : Sprite) : s.update.current_frame = s.current_frame := by
  unfold Sprite.update; simp

@[simp]
theorem Sprite.update_scale (s : Sprite) : s.update.scale = s.scale := by
  unfold Sprite.update; simp

@[simp]
theorem Sprite.update_frame_count (s : Sprite) : s.update.frame_count = s.frame_count := by
  unfold Sprite.update; simp

@[simp]
theorem mkSprite_is_dead (w : ℚ) (n : Nat) (p : Vec2) : (mkSprite w n p).is_dead = false := by
  unfold mkSprite; simp

@[simp]
theorem mkSprite_position (w : ℚ) (n : Nat) (p : Vec2) : (mkSprite w n p).position = p := by
  unfold mkSprite; simp

@[simp]
theorem mkSprite_current_frame (w : ℚ) (n : Nat) (p : Vec2) :
    (mkSprite w n p).current_frame = 0 := by
  unfold mkSprite; simp

@[simp]
theorem mkSprite_frame_count (w : ℚ) (n : Nat) (p : Vec2) :
    (mkSprite w n p).frame_count = n := by
  unfold mkSprite; simp

@[simp]
theorem mkSprite_scale (w : ℚ) (n : Nat) (p : Vec2) : (mkSprite w n p).scale = 1 := by
  unfold mkSprite; simp

@[simp]
theorem mkSprite_radius (w : ℚ) (n : Nat) (p : Vec2) : (mkSprite w n p).radius = w / 2 := by
  unfold mkSprite Sprite.create_image; simp

@[simp]
theorem mkSprite_frame_width (w : ℚ) (n : Nat) (p : Vec2) :
    (mkSprite w n p).frame_width = w := by
  unfold mkSprite; simp

@[simp]
theorem mkShot_time_to_live (E : Env) (p v : Vec2) : (mkShot E p v).time_to_live = 80 := rfl

@[simp]
theorem mkShot_is_dead (E : Env) (p v : Vec2) : (mkShot E p v).sprite.is_dead = false := by
  unfold mkShot; simp

@[simp]
theorem mkAsteroid_scale (E : Env) (p v : Vec2) (r : Int) (c : ℚ) :
    (mkAsteroid E p v r c).sprite.scale = c := by
  unfold mkAsteroid; simp

@[simp]
theorem mkAsteroid_position (E : Env) (p v : Vec2) (r : Int) (c : ℚ) :
    (mkAsteroid E p v r c).sprite.position = p := by
  unfold mkAsteroid; simp

@[simp]
theorem mkAsteroid_is_dead (E : Env) (p v : Vec2) (r : Int) (c : ℚ) :
    (mkAsteroid E p v r c).sprite.is_dead = false := by
  unfold mkAsteroid; simp

@[simp]
theorem mkExplosion_current_frame (E : Env) (p : Vec2) :
    (mkExplosion E p).sprite.current_frame = 0 := by
  unfold mkExplosion; simp

@[simp]
theorem mkExplosion_frame_count (E : Env) (p : Vec2) :
    (mkExplosion E p).sprite.frame_count = 24 := by
  unfold mkExplosion; simp

@[simp]
theorem mkExplosion_is_dead (E : Env) (p : Vec2) :
    (mkExplosion E p).sprite.is_dead = false := by
  unfold mkExplosion; simp

/-- Python modulo with a positive divisor is nonnegative. -/
theorem pymod_nonneg (a b : ℚ) (hb : 0 < b) : 0 ≤ pymod a b := by
  unfold pymod
  have h : (⌊a / b⌋ : ℚ) ≤ a / b := Int.floor_le (a / b)
  have ha : a / b * b = a := div_mul_cancel₀ a (ne_of_gt hb)
  nlinarith [mul_le_mul_of_nonneg_right h hb.le]

/-- Python modulo with a positive divisor is below the divisor. -/
theorem pymod_lt (a b : ℚ) (hb : 0 < b) : pymod a b < b := by
  unfold pymod
  have h : a / b < (⌊a / b⌋ : ℚ) + 1 := Int.lt_floor_add_one (a / b)
  have ha : a / b * b = a := div_mul_cancel₀ a (ne_of_gt hb)
  nlinarith [mul_lt_mul_of_pos_right h hb]

/-- Claim C8: with wrap enabled, set_position stores (x + W) mod W and
(y + H) mod H, which lie in [0, W) and [0, H); with wrap disabled it
stores the input vector unchanged. -/
theorem C8_set_position_wrap (s : Sprite) (v : Vec2) :
    (s.wrap = true →
      (s.set_position v).position.x = pymod (v.x + WIDTH) WIDTH ∧
      (s.set_position v).position.y = pymod (v.y + HEIGHT) HEIGHT ∧
      0 ≤ (s.set_position v).position.x ∧ (s.set_position v).position.x < WIDTH ∧
      0 ≤ (s.set_position v).position.y ∧ (s.set_position v).position.y < HEIGHT) ∧
    (s.wrap = false → (s.set_position v).position = v) := by
  have hW : (0 : ℚ) < WIDTH := by norm_num [WIDTH]
  have hH : (0 : ℚ) < HEIGHT := by norm_num [HEIGHT]
  constructor
  · intro hw
    unfold Sprite.set_position
    rw [hw]
    exact ⟨rfl, rfl, pymod_nonneg _ _ hW, pymod_lt _ _ hW, pymod_nonneg _ _ hH, pymod_lt _ _ hH⟩
  · intro hw
    unfold Sprite.set_position
    rw [hw]
    simp

/-- Witness for claim C8 at concrete inputs: a wrap-enabled ship sprite
and a wrap-disabled raw sprite. -/
theorem C8_witness :
    (((mkShip E0 ⟨0, 0⟩).sprite.set_position ⟨-100, 700⟩).position.x =
        pymod (-100 + WIDTH) WIDTH ∧
      ((mkShip E0 ⟨0, 0⟩).sprite.set_position ⟨-100, 700⟩).position.y =
        pymod (700 + HEIGHT) HEIGHT ∧
      0 ≤ ((mkShip E0 ⟨0, 0⟩).sprite.set_position ⟨-100, 700⟩).position.x ∧
      ((mkShip E0 ⟨0, 0⟩).sprite.set_position ⟨-100, 700⟩).position.x < WIDTH ∧
      0 ≤ ((mkShip E0 ⟨0, 0⟩).sprite.set_position ⟨-100, 700⟩).position.y ∧
      ((mkShip E0 ⟨0, 0⟩).sprite.set_position ⟨-100, 700⟩).position.y < HEIGHT) ∧
    ((mkSprite 10 1 ⟨0, 0⟩).set_position ⟨3, 4⟩).position = ⟨3, 4⟩ :=
  ⟨(C8_set_position_wrap (mkShip E0 ⟨0, 0⟩).sprite ⟨-100, 700⟩).1 rfl,
   (C8_set_position_wrap (mkSprite 10 1 ⟨0, 0⟩) ⟨3, 4⟩).2 (by simp [mkShip, mkSprite])⟩

/-- Claim C9: the Boolean circle test holds exactly when the Euclidean
distance between the positions is strictly below the radius sum, and the
test is symmetric in its two arguments. -/
theorem C9_circle_collide (a b : Sprite) :
    (a.is_circle_collide b = true ↔
      Real.sqrt (((a.position.x - b.position.x : ℚ) : ℝ) ^ 2 +
          ((a.position.y - b.position.y : ℚ) : ℝ) ^ 2) <
        (a.radius : ℝ) + (b.radius : ℝ)) ∧
    a.is_circle_collide b = b.is_circle_collide a := by
  constructor
  · unfold Sprite.is_circle_collide
    rw [decide_eq_true_eq]
    constructor
    · rintro ⟨hr, hd⟩
      have hr' : (0 : ℝ) < (a.radius : ℝ) + (b.radius : ℝ) := by exact_mod_cast hr
      rw [Real.sqrt_lt' hr']
      exact_mod_cast hd
    · intro h
      have hr' : (0 : ℝ) < (a.radius : ℝ) + (b.radius : ℝ) :=
        lt_of_le_of_lt (Real.sqrt_nonneg _) h
      have hd := (Real.sqrt_lt' hr').mp h
      constructor
      · exact_mod_cast hr'
      · exact_mod_cast hd
  · unfold Sprite.is_circle_collide
    rw [decide_eq_decide]
    constructor <;> rintro ⟨h1, h2⟩ <;> constructor <;> linarith

/-- Single-step behaviour of Shot.update on the time to live. -/
theorem Shot.update_ttl (s : Shot) (h : 0 < s.time_to_live) :
    (Shot.update s).time_to_live = s.time_to_live - 1 := by
  unfold Shot.update
  simp only [h, if_true]
  split <;> rfl

/-- Single-step behaviour of Shot.update on the dead flag. -/
theorem Shot.update_dead (s : Shot) (h : 0 < s.time_to_live) :
    (Shot.update s).sprite.is_dead =
      (s.sprite.is_dead || decide (s.time_to_live - 1 = 0)) := by
  unfold Shot.update
  simp only [h, if_true]
  split <;> simp_all

/-- Iterated Shot.update: for any live shot and any k up to the time to
live, after k updates the time to live has dropped by exactly k and the
shot is dead exactly when k equals the initial time to live. -/
theorem shot_iter (k : Nat) :
    ∀ s : Shot, s.sprite.is_dead = false → 0 < s.time_to_live → k ≤ s.time_to_live →
      (Shot.update^[k] s).time_to_live = s.time_to_live - k ∧
      (Shot.update^[k] s).sprite.is_dead = decide (k = s.time_to_live) := by
  induction k with
  | zero =>
      intro s hd ht _
      refine ⟨by simp, ?_⟩
      rw [Function.iterate_zero_apply, hd]
      symm
      rw [decide_eq_false_iff_not]
      omega
  | succ k ih =>
      intro s hd ht hk
      rw [Function.iterate_succ_apply]
      have httl := Shot.update_ttl s ht
      have hdead := Shot.update_dead s ht
      by_cases h1 : s.time_to_live = 1
      · have hk0 : k = 0 := by omega
        subst hk0
        rw [Function.iterate_zero_apply]
        refine ⟨by omega, ?_⟩
        rw [hdead, hd, h1]
        simp
      · have hd' : (Shot.update s).sprite.is_dead = false := by
          rw [hdead, hd]
          simp only [Bool.false_or, decide_eq_false_iff_not]
          omega
        have ht' : 0 < (Shot.update s).time_to_live := by omega
        have hk' : k ≤ (Shot.update s).time_to_live := by omega
        obtain ⟨ih1, ih2⟩ := ih (Shot.update s) hd' ht' hk'
        refine ⟨by omega, ?_⟩
        rw [ih2, httl]
        rw [decide_eq_decide]
        omega

/-- Claim C6: a new shot has time to live 80; after k ≤ 80 updates the
time to live is 80 - k, and the shot is dead exactly when k = 80 (so it
is alive after any fewer updates and dead after exactly 80). -/
theorem C6_shot_ttl (E : Env) (p v : Vec2) (k : Nat) (hk : k ≤ 80) :
    (mkShot E p v).time_to_live = 80 ∧
    (Shot.update^[k] (mkShot E p v)).time_to_live = 80 - k ∧
    (Shot.update^[k] (mkShot E p v)).sprite.is_dead = decide (k = 80) := by
  have h := shot_iter k (mkShot E p v) (by simp) (by simp) (by simp [hk])
  simpa using h

/-- Witness for claim C6 at k = 80: the shot is dead with time to live 0,
and at k = 79 it is still alive. -/
theorem C6_witness :
    ((Shot.update^[80] (mkShot E0 ⟨0, 0⟩ ⟨0, 0⟩)).time_to_live = 0 ∧
      (Shot.update^[80] (mkShot E0 ⟨0, 0⟩ ⟨0, 0⟩)).sprite.is_dead = true) ∧
    (Shot.update^[79] (mkShot E0 ⟨0, 0⟩ ⟨0, 0⟩)).sprite.is_dead = false := by
  have h80 := C6_shot_ttl E0 ⟨0, 0⟩ ⟨0, 0⟩ 80 (by decide)
  have h79 := C6_shot_ttl E0 ⟨0, 0⟩ ⟨0, 0⟩ 79 (by decide)
  exact ⟨⟨h80.2.1, h80.2.2⟩, h79.2.2⟩

/-- Single-step behaviour of Explosion.update while the next frame stays
within range. -/
theorem Explosion.update_spec (e : Explosion) (hd : e.sprite.is_dead = false)
    (h24 : e.sprite.frame_count = 24) (h0 : 0 ≤ e.sprite.current_frame)
    (hle : e.sprite.current_frame + 1 ≤ 23) :
    (e.update).sprite.current_frame = e.sprite.current_frame + 1 ∧
    (e.update).sprite.is_dead = decide (e.sprite.current_frame + 1 = 23) ∧
    (e.update).sprite.frame_count = 24 := by
  have hmin : (23 : Int) ⊓ (e.sprite.current_frame + 1) = e.sprite.current_frame + 1 :=
    min_eq_right (by omega)
  have hmax : (0 : Int) ⊔ (e.sprite.current_frame + 1) = e.sprite.current_frame + 1 :=
    max_eq_right (by omega)
  unfold Explosion.update
  by_cases hc : e.sprite.current_frame + 1 = 23 <;>
    simp [h24, hmin, hmax, hd, hc]

/-- Iterated Explosion.update: starting from any in-range frame strictly
below 23, after k updates (with the frame staying at most 23) the frame
has advanced by exactly k and the explosion is dead exactly when the
frame reached 23. -/
theorem explosion_iter (k : Nat) :
    ∀ e : Explosion, e.sprite.is_dead = false → e.sprite.frame_count = 24 →
      0 ≤ e.sprite.current_frame → e.sprite.current_frame < 23 →
      e.sprite.current_frame + k ≤ 23 →
      (Explosion.update^[k] e).sprite.current_frame = e.sprite.current_frame + k ∧
      (Explosion.update^[k] e).sprite.is_dead =
        decide (e.sprite.current_frame + k = 23) := by
  induction k with
  | zero =>
      intro e hd h24 h0 hlt _
      refine ⟨by simp, ?_⟩
      rw [Function.iterate_zero_apply, hd]
      symm
      rw [decide_eq_false_iff_not]
      omega
  | succ k ih =>
      intro e hd h24 h0 hlt hk
      rw [Function.iterate_succ_apply]
      obtain ⟨hf, hdead, hfc⟩ := Explosion.update_spec e hd h24 h0 (by omega)
      by_cases hc : e.sprite.current_frame + 1 = 23
      · have hk0 : k = 0 := by omega
        subst hk0
        rw [Function.iterate_zero_apply]
        refine ⟨by omega, ?_⟩
        rw [hdead]
        rw [decide_eq_decide]
        omega
      · have hd' : (e.update).sprite.is_dead = false := by
          rw [hdead]
          simp only [decide_eq_false_iff_not]
          omega
        obtain ⟨ih1, ih2⟩ := ih e.update hd' hfc (by omega) (by omega) (by omega)
        refine ⟨by omega, ?_⟩
        rw [ih2, hf]
        rw [decide_eq_decide]
        omega

/-- Claim C7: a fresh explosion starts at frame 0; after k ≤ 23 updates
its frame index is exactly k (one advance per update), and it is dead
exactly when k = 23 — alive on every earlier update. -/
theorem C7_explosion (E : Env) (p : Vec2) (k : Nat) (hk : k ≤ 23) :
    (Explosion.update^[k] (mkExplosion E p)).sprite.current_frame = k ∧
    (Explosion.update^[k] (mkExplosion E p)).sprite.is_dead = decide ((k : Int) = 23) := by
  have h := explosion_iter k (mkExplosion E p) (by simp) (by simp) (by simp) (by simp)
    (by simp [hk])
  simpa using h

/-- Witness for claim C7 at k = 23 and k = 22: dead exactly at frame 23,
alive one update earlier. -/
theorem C7_witness :
    ((Explosion.update^[23] (mkExplosion E0 ⟨0, 0⟩)).sprite.current_frame = 23 ∧
      (Explosion.update^[23] (mkExplosion E0 ⟨0, 0⟩)).sprite.is_dead = true) ∧
    (Explosion.update^[22] (mkExplosion E0 ⟨0, 0⟩)).sprite.is_dead = false := by
  have h23 := C7_explosion E0 ⟨0, 0⟩ 23 (by decide)
  have h22 := C7_explosion E0 ⟨0, 0⟩ 22 (by decide)
  exact ⟨⟨h23.1, by simpa using h23.2⟩, by simpa using h22.2⟩

/-- Claim C5: add_shot is a no-op while the cooldown is positive; a
successful add_shot appends exactly one shot and resets the cooldown to
15; the manager update decrements a positive cooldown by 1; and in the
hold-the-fire-key scenario the attempts of ticks 2 through 15 produce no
second shot while the attempt of tick 16 does. -/
theorem C5_shot_cooldown :
    (∀ (E : Env) (m : ShotManager) (p v : Vec2), 0 < m.shot_delay → m.add_shot E p v = m) ∧
    (∀ (E : Env) (m : ShotManager) (p v : Vec2), m.shot_delay = 0 →
      (m.add_shot E p v).objects = m.objects ++ [mkShot E p v] ∧
      (m.add_shot E p v).shot_delay = 15) ∧
    (∀ m : ShotManager, 0 < m.shot_delay → m.update.shot_delay = m.shot_delay - 1) ∧
    ((fireTick E0)^[15] shotMgr0).objects.length = 1 ∧
    ((fireTick E0)^[16] shotMgr0).objects.length = 2 := by
  refine ⟨?_, ?_, ?_, ?_, ?_⟩
  · intro E m p v h
    unfold ShotManager.add_shot
    rw [if_neg (by omega)]
  · intro E m p v h
    unfold ShotManager.add_shot
    rw [if_pos h]
    exact ⟨rfl, rfl⟩
  · intro m h
    unfold ShotManager.update
    simp [h]
  · decide
  · decide

/-- Witness for claim C5: a warm manager ignores a fire attempt, a cold
one gains exactly one shot and a cooldown of 15, and the update cools a
positive cooldown by one tick. -/
theorem C5_witness :
    ShotManager.add_shot E0 shotMgr7 ⟨0, 0⟩ ⟨0, 0⟩ = shotMgr7 ∧
    (ShotManager.add_shot E0 shotMgr0 ⟨0, 0⟩ ⟨0, 0⟩).objects =
      shotMgr0.objects ++ [mkShot E0 ⟨0, 0⟩ ⟨0, 0⟩] ∧
    (ShotManager.add_shot E0 shotMgr0 ⟨0, 0⟩ ⟨0, 0⟩).shot_delay = 15 ∧
    (ShotManager.update shotMgr7).shot_delay = 6 :=
  ⟨C5_shot_cooldown.1 E0 shotMgr7 ⟨0, 0⟩ ⟨0, 0⟩ (by decide),
   (C5_shot_cooldown.2.1 E0 shotMgr0 ⟨0, 0⟩ ⟨0, 0⟩ (by decide)).1,
   (C5_shot_cooldown.2.1 E0 shotMgr0 ⟨0, 0⟩ ⟨0, 0⟩ (by decide)).2,
   C5_shot_cooldown.2.2.1 shotMgr7 (by decide)⟩

/-- Objects produced by add_asteroid at a given position: one asteroid is
appended at that position, with the drawn heading and spin. -/
theorem add_asteroid_some_objects (E : Env) (m : AsteroidManager) (c : ℚ) (p : Vec2) :
    (m.add_asteroid E c (some p)).objects =
      m.objects ++ [mkAsteroid E p (E.polar (m.rnd.randint 0 360).1)
        ((m.rnd.randint 0 360).2.randint (-10) 10).1 c] := rfl

/-- add_asteroid always appends exactly one asteroid. -/
theorem add_asteroid_length (E : Env) (m : AsteroidManager) (c : ℚ) (p? : Option Vec2) :
    (m.add_asteroid E c p?).objects.length = m.objects.length + 1 := by
  cases p? <;> simp [AsteroidManager.add_asteroid]

/-- Two successive add_asteroid calls at the same position append exactly
two asteroids with the requested scale at that position. -/
theorem add_asteroid2 (E : Env) (m : AsteroidManager) (c : ℚ) (p : Vec2) :
    ∃ c₁ c₂ : Asteroid,
      ((m.add_asteroid E c (some p)).add_asteroid E c (some p)).objects =
        m.objects ++ [c₁, c₂] ∧
      c₁.sprite.scale = c ∧ c₁.sprite.position = p ∧
      c₂.sprite.scale = c ∧ c₂.sprite.position = p := by
  have h2 := add_asteroid_some_objects E (m.add_asteroid E c (some p)) c p
  rw [add_asteroid_some_objects E m c p, List.append_assoc] at h2
  exact ⟨_, _, h2, by simp, by simp, by simp, by simp⟩

/-- Two sprites whose centers coincide collide whenever their radius sum
is positive. -/
theorem is_circle_collide_same (s t : Sprite) (hp : s.position = t.position)
    (hr : 0 < s.radius + t.radius) : s.is_circle_collide t = true := by
  unfold Sprite.is_circle_collide
  rw [decide_eq_true_eq, hp]
  refine ⟨hr, ?_⟩
  simp only [sub_self]
  norm_num
  positivity

/-- Radius of the witness shot. -/
theorem shot1_radius : shot1.sprite.radius = 5 := by
  norm_num [shot1, mkShot, E0]

/-- Radius of the witness full-scale asteroid. -/
theorem ast1_radius : ast1.sprite.radius = 45 := by
  norm_num [ast1, mkAsteroid, Sprite.set_scale, Sprite.create_image, E0]

/-- Radius of the witness smallest-tier asteroid. -/
theorem astHalf_radius : astHalf.sprite.radius = 45 / 2 := by
  norm_num [astHalf, mkAsteroid, Sprite.set_scale, Sprite.create_image, E0]

/-- Full-state characterization of hitPair on a colliding pair whose
asteroid does not split (scale at most 1/2): both objects are marked dead
in place, one explosion is appended at the asteroid position and the
score grows by 1000, with everything else untouched. -/
theorem hitPair_hit_small (E : Env) (g : Game) (i j : Nat) (a : Asteroid) (sh : Shot)
    (ha : g.asteroid_manager.objects[i]? = some a)
    (hs : g.shot_manager.objects[j]? = some sh)
    (had : a.sprite.is_dead = false)
    (hsd : sh.sprite.is_dead = false)
    (hc : sh.sprite.is_circle_collide a.sprite = true)
    (hsc : ¬(1 / 2 < a.sprite.scale)) :
    hitPair E g i j =
      { g with
        shot_manager := { g.shot_manager with
          objects := g.shot_manager.objects.set j
            { sh with sprite := { sh.sprite with is_dead := true } } },
        asteroid_manager := { g.asteroid_manager with
          objects := g.asteroid_manager.objects.set i
            { a with sprite := { a.sprite with is_dead := true } } },
        explosion_manager := g.explosion_manager.add_explosion E a.sprite.position,
        score := g.score + 1000 } := by
  unfold hitPair
  rw [ha, hs]
  simp only [had, hsd, hc, Bool.not_false, Bool.and_self, Bool.true_and, if_true]
  rw [if_neg hsc]

/-- Claim C1: when a live shot collides with a live asteroid in the inner
collision loop, the shot and the asteroid are marked dead in place, one
explosion is appended at the asteroid position, the score grows by
exactly 1000, and the split rule appends exactly two scale-3/4 children
at the same position for a scale-1 parent, exactly two scale-1/2 children
for a parent of scale above 1/2 and different from 1, and no children for
a scale-1/2 parent. -/
theorem C1_shot_asteroid (E : Env) (g : Game) (i j : Nat) (a : Asteroid) (sh : Shot)
    (ha : g.asteroid_manager.objects[i]? = some a)
    (hs : g.shot_manager.objects[j]? = some sh)
    (had : a.sprite.is_dead = false)
    (hsd : sh.sprite.is_dead = false)
    (hc : sh.sprite.is_circle_collide a.sprite = true) :
    (hitPair E g i j).shot_manager.objects =
      g.shot_manager.objects.set j { sh with sprite := { sh.sprite with is_dead := true } } ∧
    (hitPair E g i j).score = g.score + 1000 ∧
    (hitPair E g i j).explosion_manager.objects =
      g.explosion_manager.objects ++ [mkExplosion E a.sprite.position] ∧
    (a.sprite.scale = 1 →
      ∃ c₁ c₂ : Asteroid,
        (hitPair E g i j).asteroid_manager.objects =
          g.asteroid_manager.objects.set i
            { a with sprite := { a.sprite with is_dead := true } } ++ [c₁, c₂] ∧
        c₁.sprite.scale = 3 / 4 ∧ c₁.sprite.position = a.sprite.position ∧
        c₂.sprite.scale = 3 / 4 ∧ c₂.sprite.position = a.sprite.position) ∧
    (1 / 2 < a.sprite.scale → a.sprite.scale ≠ 1 →
      ∃ c₁ c₂ : Asteroid,
        (hitPair E g i j).asteroid_manager.objects =
          g.asteroid_manager.objects.set i
            { a with sprite := { a.sprite with is_dead := true } } ++ [c₁, c₂] ∧
        c₁.sprite.scale = 1 / 2 ∧ c₁.sprite.position = a.sprite.position ∧
        c₂.sprite.scale = 1 / 2 ∧ c₂.sprite.position = a.sprite.position) ∧
    (a.sprite.scale = 1 / 2 →
      (hitPair E g i j).asteroid_manager.objects =
        g.asteroid_manager.objects.set i
          { a with sprite := { a.sprite with is_dead := true } }) := by
  unfold hitPair
  rw [ha, hs]
  simp only [had, hsd, hc, Bool.not_false, Bool.and_self, Bool.true_and, if_true]
  refine ⟨?_, ?_, ?_, ?_, ?_, ?_⟩
  · by_cases h1 : 1 / 2 < a.sprite.scale
    · rw [if_pos h1]; try rfl
    · rw [if_neg h1]; try rfl
  · by_cases h1 : 1 / 2 < a.sprite.scale
    · rw [if_pos h1]; try rfl
    · rw [if_neg h1]; try rfl
  · by_cases h1 : 1 / 2 < a.sprite.scale
    · rw [if_pos h1]; try rfl
    · rw [if_neg h1]; try rfl
  · intro hsc
    have h1 : 1 / 2 < a.sprite.scale := by rw [hsc]; norm_num
    rw [if_pos h1]
    obtain ⟨c₁, c₂, hobj, hs1, hp1, hs2, hp2⟩ :=
      add_asteroid2 E
        { objects := g.asteroid_manager.objects.set i
            { a with sprite := { a.sprite with is_dead := true } },
          rnd := g.asteroid_manager.rnd }
        (if a.sprite.scale = 1 then 3 / 4 else 1 / 2) a.sprite.position
    rw [if_pos hsc] at hs1 hs2
    exact ⟨c₁, c₂, hobj, hs1, hp1, hs2, hp2⟩
  · intro h1 hne
    rw [if_pos h1]
    obtain ⟨c₁, c₂, hobj, hs1, hp1, hs2, hp2⟩ :=
      add_asteroid2 E
        { objects := g.asteroid_manager.objects.set i
            { a with sprite := { a.sprite with is_dead := true } },
          rnd := g.asteroid_manager.rnd }
        (if a.sprite.scale = 1 then 3 / 4 else 1 / 2) a.sprite.position
    rw [if_neg hne] at hs1 hs2
    exact ⟨c₁, c₂, hobj, hs1, hp1, hs2, hp2⟩
  · intro hsc
    have h1 : ¬(1 / 2 < a.sprite.scale) := by rw [hsc]; exact lt_irrefl _
    rw [if_neg h1]

/-- Witness for claim C1: a live shot on top of a live scale-1 asteroid
kills both, spawns one explosion at the asteroid position, adds 1000 to
the score and appends two scale-3/4 children at the same position. -/
theorem C1_witness :
    (hitPair E0 gMenuShot 0 0).score = gMenuShot.score + 1000 ∧
    (hitPair E0 gMenuShot 0 0).shot_manager.objects =
      gMenuShot.shot_manager.objects.set 0
        { shot1 with sprite := { shot1.sprite with is_dead := true } } ∧
    (hitPair E0 gMenuShot 0 0).explosion_manager.objects =
      gMenuShot.explosion_manager.objects ++ [mkExplosion E0 ast1.sprite.position] ∧
    (∃ c₁ c₂ : Asteroid,
      (hitPair E0 gMenuShot 0 0).asteroid_manager.objects =
        gMenuShot.asteroid_manager.objects.set 0
          { ast1 with sprite := { ast1.sprite with is_dead := true } } ++ [c₁, c₂] ∧
      c₁.sprite.scale = 3 / 4 ∧ c₁.sprite.position = ast1.sprite.position ∧
      c₂.sprite.scale = 3 / 4 ∧ c₂.sprite.position = ast1.sprite.position) := by
  have hc : shot1.sprite.is_circle_collide ast1.sprite = true :=
    is_circle_collide_same _ _ (by simp [shot1, ast1, mkShot])
      (by rw [shot1_radius, ast1_radius]; norm_num)
  have h := C1_shot_asteroid E0 gMenuShot 0 0 ast1 shot1 rfl rfl (by decide) (by decide) hc
  exact ⟨h.2.1, h.1, h.2.2.1, h.2.2.2.1 (by decide)⟩

/-- Position after setting the sprite position to the screen center: the
center is already inside the canvas, so it is stored as given whether or
not wrap is enabled. -/
theorem set_position_center (s : Sprite) :
    (s.set_position ⟨WIDTH / 2, HEIGHT / 2⟩).position = ⟨WIDTH / 2, HEIGHT / 2⟩ := by
  have h1 : pymod (WIDTH / 2 + WIDTH) WIDTH = WIDTH / 2 := by norm_num [pymod, WIDTH]
  have h2 : pymod (HEIGHT / 2 + HEIGHT) HEIGHT = HEIGHT / 2 := by norm_num [pymod, HEIGHT]
  unfold Sprite.set_position
  split
  · show Vec2.mk (pymod (WIDTH / 2 + WIDTH) WIDTH) (pymod (HEIGHT / 2 + HEIGHT) HEIGHT) = _
    rw [h1, h2]
  · rfl

/-- Claim C2: a live ship colliding with a live asteroid loses a life,
dies with thrust cleared and spawns an explosion at the ship position,
returning to the menu exactly when the decremented lives reach 0 and
otherwise arming the 250-tick respawn timer; the respawn handler of the
playing branch decrements a positive timer, leaves the ship untouched
while the timer stays positive, and on the tick the timer reaches 0
revives the ship at the screen center. -/
theorem C2_ship_life_loss :
    (∀ (E : Env) (g : Game) (i : Nat) (a : Asteroid),
      g.asteroid_manager.objects[i]? = some a →
      a.sprite.is_dead = false →
      g.ship.sprite.is_dead = false →
      g.ship.sprite.is_circle_collide a.sprite = true →
      (shipCheck E g i).lives = g.lives - 1 ∧
      (shipCheck E g i).ship.sprite.is_dead = true ∧
      (shipCheck E g i).ship.thrust = false ∧
      (shipCheck E g i).explosion_manager.objects =
        g.explosion_manager.objects ++ [mkExplosion E g.ship.sprite.position] ∧
      (g.lives - 1 = 0 → (shipCheck E g i).game_state = GState.Menu ∧
        (shipCheck E g i).respawn_time = g.respawn_time) ∧
      (g.lives - 1 ≠ 0 → (shipCheck E g i).respawn_time = MAX_RESPAWN_TIME ∧
        (shipCheck E g i).game_state = g.game_state)) ∧
    (∀ g : Game, 0 < g.respawn_time →
      (respawnStep g).respawn_time = g.respawn_time - 1 ∧
      (g.respawn_time = 1 →
        (respawnStep g).ship.sprite.is_dead = false ∧
        (respawnStep g).ship.sprite.position = ⟨WIDTH / 2, HEIGHT / 2⟩) ∧
      (1 < g.respawn_time → (respawnStep g).ship = g.ship)) := by
  constructor
  · intro E g i a ha had hsd hc
    unfold shipCheck
    rw [ha]
    simp only [had, hsd, hc, Bool.not_false, Bool.and_self, Bool.true_and, if_true]
    by_cases hl : g.lives - 1 = 0
    · rw [if_pos hl]
      exact ⟨rfl, rfl, rfl, rfl, fun _ => ⟨rfl, rfl⟩, fun h => absurd hl h⟩
    · rw [if_neg hl]
      exact ⟨rfl, rfl, rfl, rfl, fun h => absurd h hl, fun _ => ⟨rfl, rfl⟩⟩
  · intro g hr
    unfold respawnStep
    rw [if_pos hr]
    by_cases h1 : g.respawn_time - 1 = 0
    · rw [if_pos h1]
      refine ⟨rfl, fun _ => ⟨by simp, set_position_center _⟩, fun hgt => ?_⟩
      exact absurd h1 (by omega)
    · rw [if_neg h1]
      exact ⟨rfl, fun he => absurd (by omega : g.respawn_time - 1 = 0) h1, fun _ => rfl⟩

/-- Witness for claim C2: the live ship of gShipHit on a live asteroid
loses a life into the respawn branch, and a 1-tick timer revives the ship
at the center while a 5-tick timer only counts down. -/
theorem C2_witness :
    ((shipCheck E0 gShipHit 0).lives = gShipHit.lives - 1 ∧
      (shipCheck E0 gShipHit 0).ship.sprite.is_dead = true ∧
      (shipCheck E0 gShipHit 0).ship.thrust = false ∧
      (shipCheck E0 gShipHit 0).respawn_time = MAX_RESPAWN_TIME) ∧
    ((respawnStep { gShipHit with respawn_time := 1 }).respawn_time = 0 ∧
      (respawnStep { gShipHit with respawn_time := 1 }).ship.sprite.is_dead = false ∧
      (respawnStep { gShipHit with respawn_time := 1 }).ship.sprite.position =
        ⟨WIDTH / 2, HEIGHT / 2⟩) ∧
    ((respawnStep { gShipHit with respawn_time := 5 }).respawn_time = 4 ∧
      (respawnStep { gShipHit with respawn_time := 5 }).ship = gShipHit.ship) := by
  have hc : gShipHit.ship.sprite.is_circle_collide ast1.sprite = true :=
    is_circle_collide_same _ _ (by simp [gShipHit, mkShip, ast1])
      (by rw [ast1_radius]; norm_num [gShipHit, mkShip, E0])
  have h1 := C2_ship_life_loss.1 E0 gShipHit 0 ast1 rfl (by decide) (by decide) hc
  have h2 := C2_ship_life_loss.2 { gShipHit with respawn_time := 1 } (by decide)
  have h3 := C2_ship_life_loss.2 { gShipHit with respawn_time := 5 } (by decide)
  refine ⟨⟨h1.1, h1.2.1, h1.2.2.1, (h1.2.2.2.2.2 (by decide)).1⟩, ?_, ?_⟩
  · obtain ⟨hr1, hrev, _⟩ := h2
    obtain ⟨hdead, hpos⟩ := hrev rfl
    exact ⟨hr1, hdead, hpos⟩
  · obtain ⟨hr5, _, hkeep⟩ := h3
    exact ⟨hr5, hkeep (by decide)⟩

/-- hitPair never changes the lives counter. -/
theorem hitPair_lives (E : Env) (g : Game) (i j : Nat) : (hitPair E g i j).lives = g.lives := by
  unfold hitPair
  split
  · split
    · split <;> rfl
    · rfl
  · rfl

/-- The inner shot loop never changes the lives counter. -/
theorem shotLoopAux_lives (E : Env) (i : Nat) :
    ∀ (n j : Nat) (g : Game), (shotLoopAux E i n j g).lives = g.lives := by
  intro n
  induction n with
  | zero => intro j g; rfl
  | succ n ih =>
      intro j g
      rw [shotLoopAux, ih, hitPair_lives]

/-- Claim C3: within one pass, all shot collisions against an asteroid
run before the ship check on that asteroid; hence an asteroid that the
shot loop left dead (in particular one killed by a shot collision this
tick, having entered the pass alive) never also registers a ship
collision — the ship check is a no-op and the lives counter stays exactly
what it was before the pass. -/
theorem C3_shot_before_ship (E : Env) (g : Game) (i : Nat) (a a' : Asteroid)
    (ha : g.asteroid_manager.objects[i]? = some a)
    (had : a.sprite.is_dead = false)
    (ha' : (shotLoop E g i).asteroid_manager.objects[i]? = some a')
    (had' : a'.sprite.is_dead = true) :
    processAsteroid E g i = shotLoop E g i ∧
    (processAsteroid E g i).lives = g.lives := by
  have key : shipCheck E (shotLoop E g i) i = shotLoop E g i := by
    unfold shipCheck
    rw [ha']
    simp [had']
  refine ⟨key, ?_⟩
  rw [processAsteroid, key]
  unfold shotLoop
  exact shotLoopAux_lives E i _ 0 g

/-- Witness for claim C3: in gBoth the shot and the ship both overlap the
asteroid; the shot loop kills the asteroid first, so the full asteroid
iteration equals the shot loop alone and the lives counter is
unchanged. -/
theorem C3_witness :
    processAsteroid E0 gBoth 0 = shotLoop E0 gBoth 0 ∧
    (processAsteroid E0 gBoth 0).lives = gBoth.lives := by
  have hc : shot1.sprite.is_circle_collide astHalf.sprite = true :=
    is_circle_collide_same _ _ (by simp [shot1, astHalf, mkShot])
      (by rw [shot1_radius, astHalf_radius]; norm_num)
  have hsmall := hitPair_hit_small E0 gBoth 0 0 astHalf shot1 rfl rfl (by simp [astHalf])
    (by simp [shot1]) hc (by norm_num [astHalf])
  have hsl : shotLoop E0 gBoth 0 = hitPair E0 gBoth 0 0 := rfl
  have ha' : (shotLoop E0 gBoth 0).asteroid_manager.objects[0]? =
      some { astHalf with sprite := { astHalf.sprite with is_dead := true } } := by
    rw [hsl, hsmall]
    rfl
  have h := C3_shot_before_ship E0 gBoth 0 astHalf
    { astHalf with sprite := { astHalf.sprite with is_dead := true } }
    rfl (by simp [astHalf]) ha' rfl
  exact ⟨h.1, h.2⟩

/-- Whatever the optional position argument, add_asteroid appends one
asteroid of the requested scale. -/
theorem add_asteroid_objects_shape (E : Env) (m : AsteroidManager) (c : ℚ) (p? : Option Vec2) :
    ∃ pos vel rot, (m.add_asteroid E c p?).objects = m.objects ++ [mkAsteroid E pos vel rot c] := by
  cases p? <;> exact ⟨_, _, _, rfl⟩

/-- add_asteroidsN appends exactly n asteroids. -/
theorem add_asteroidsN_length (E : Env) (n : Nat) :
    ∀ m : AsteroidManager,
      (AsteroidManager.add_asteroidsN E n m).objects.length = m.objects.length + n := by
  induction n with
  | zero => intro m; rfl
  | succ n ih =>
      intro m
      rw [AsteroidManager.add_asteroidsN, ih, add_asteroid_length]
      omega

/-- Every asteroid present after add_asteroidsN was already present or
has scale 1. -/
theorem add_asteroidsN_scale (E : Env) (n : Nat) :
    ∀ m : AsteroidManager, ∀ a ∈ (AsteroidManager.add_asteroidsN E n m).objects,
      a ∈ m.objects ∨ a.sprite.scale = 1 := by
  induction n with
  | zero => intro m a hmem; exact Or.inl hmem
  | succ n ih =>
      intro m a hmem
      rw [AsteroidManager.add_asteroidsN] at hmem
      rcases ih _ a hmem with h | h
      · obtain ⟨pos, vel, rot, hobj⟩ := add_asteroid_objects_shape E m 1 none
        rw [hobj] at h
        rcases List.mem_append.mp h with h2 | h2
        · exact Or.inl h2
        · right
          rw [List.mem_singleton.mp h2]
          simp
      · exact Or.inr h

/-- Claim C4: Game.update always ends with the level-clear check applied
to the post-manager state, and whenever the asteroid collection is empty
there, the level grows by 1 and exactly 3 + level * 2 asteroids (with the
new level), all of scale 1, are spawned in that same tick. -/
theorem C4_level_clear :
    (∀ (E : Env) (keys : Keys) (g : Game),
      Game.update E keys g = levelCheck E (Game.runManagers E (Game.branchStep E keys g))) ∧
    (∀ (E : Env) (g : Game), g.asteroid_manager.objects.length = 0 →
      (levelCheck E g).level = g.level + 1 ∧
      (levelCheck E g).asteroid_manager.objects.length = (3 + (g.level + 1) * 2).toNat ∧
      ∀ a ∈ (levelCheck E g).asteroid_manager.objects, a.sprite.scale = 1) := by
  constructor
  · intro E keys g
    rfl
  · intro E g h0
    have hnil : g.asteroid_manager.objects = [] := List.length_eq_zero.mp h0
    unfold levelCheck
    rw [if_pos h0]
    refine ⟨rfl, ?_, ?_⟩
    · show (AsteroidManager.add_asteroids E g.asteroid_manager (3 + (g.level + 1) * 2)).objects.length = _
      unfold AsteroidManager.add_asteroids
      rw [add_asteroidsN_length, h0]
      omega
    · intro a hmem
      rcases add_asteroidsN_scale E _ _ a hmem with h | h
      · rw [hnil] at h
        exact absurd h (List.not_mem_nil a)
      · exact h

/-- Witness for claim C4: the empty menu game levels up from 0 to 1 and
spawns exactly 3 + 1 * 2 = 5 full-scale asteroids. -/
theorem C4_witness :
    gMenuEmpty.asteroid_manager.objects.length = 0 ∧
    (levelCheck E0 gMenuEmpty).level = gMenuEmpty.level + 1 ∧
    (levelCheck E0 gMenuEmpty).asteroid_manager.objects.length = 5 ∧
    ∀ a ∈ (levelCheck E0 gMenuEmpty).asteroid_manager.objects, a.sprite.scale = 1 := by
  have h := C4_level_clear.2 E0 gMenuEmpty rfl
  refine ⟨rfl, h.1, ?_, h.2.2⟩
  rw [h.2.1]
  rfl

/-- Ship.update never changes the dead flag. -/
theorem ship_update_preserves_dead (E : Env) (sh : Ship) :
    (Ship.update E sh).sprite.is_dead = sh.sprite.is_dead := by
  unfold Ship.update
  by_cases ht : sh.thrust <;> simp [ht]

/-- The ship check is a no-op whenever the ship is already dead. -/
theorem shipCheck_dead_ship (E : Env) (g : Game) (i : Nat)
    (h : g.ship.sprite.is_dead = true) : shipCheck E g i = g := by
  unfold shipCheck
  split
  · simp [h]
  · rfl

/-- One unfolding step of the fueled outer collision loop. -/
theorem chkLoopF_succ (E : Env) (n : Nat) (g : Game) (i : Nat) :
    chkLoopF E (n + 1) g i =
      if i < g.asteroid_manager.objects.length then
        chkLoopF E n (processAsteroid E g i) (i + 1)
      else g := rfl

/-- Claim C10: Game.update runs the ship update, the full collision
resolution, the three manager updates and the level-clear check in the
Menu state just as in the Playing state; consequently a live shot
colliding with an asteroid while in the menu still kills both, spawns an
explosion, awards 1000 points and triggers the level-clear spawn once the
collection empties, and an empty asteroid collection in the menu (as at
program start) still increments the level and spawns a wave. -/
theorem C10_core_runs_in_menu :
    (∀ (E : Env) (keys : Keys) (g : Game), g.game_state = GState.Menu → keys.space = false →
      Game.update E keys g = levelCheck E (Game.runManagers E (menuBlink g))) ∧
    ((Game.update E0 keys0 gMenuHalf).score = gMenuHalf.score + 1000 ∧
      (Game.update E0 keys0 gMenuHalf).explosion_manager.objects.length = 1 ∧
      (Game.update E0 keys0 gMenuHalf).level = gMenuHalf.level + 1 ∧
      (Game.update E0 keys0 gMenuHalf).asteroid_manager.objects.length = 7) ∧
    ((Game.update E0 keys0 gMenuEmpty).level = gMenuEmpty.level + 1 ∧
      (Game.update E0 keys0 gMenuEmpty).asteroid_manager.objects.length = 5) := by
  have hcore : ∀ (E : Env) (keys : Keys) (g : Game), g.game_state = GState.Menu →
      keys.space = false →
      Game.update E keys g = levelCheck E (Game.runManagers E (menuBlink g)) := by
    intro E keys g hm hsp
    have hb : Game.branchStep E keys g = menuBlink g := by
      unfold Game.branchStep
      rw [hm]
      simp [hsp]
    rw [Game.update, hb]
  refine ⟨hcore, ?_, ?_⟩
  · -- the colliding-shot scenario, evaluated step by step
    have hc : shot1.sprite.is_circle_collide astHalf.sprite = true :=
      is_circle_collide_same _ _ (by simp [shot1, astHalf, mkShot])
        (by rw [shot1_radius, astHalf_radius]; norm_num)
    have hhit : hitPair E0 gHalfMid 0 0 = gHalfHit := by
      rw [hitPair_hit_small E0 gHalfMid 0 0 astHalf shot1 rfl rfl (by simp [astHalf])
        (by simp [shot1]) hc (by norm_num [astHalf])]
      rfl
    have hshipdead : gHalfHit.ship.sprite.is_dead = true := by
      show (Ship.update E0 gHalfBranch.ship).sprite.is_dead = true
      rw [ship_update_preserves_dead]
      rfl
    have hpa : processAsteroid E0 gHalfMid 0 = gHalfHit := by
      show shipCheck E0 (shotLoop E0 gHalfMid 0) 0 = gHalfHit
      rw [show shotLoop E0 gHalfMid 0 = hitPair E0 gHalfMid 0 0 from rfl, hhit]
      exact shipCheck_dead_ship E0 gHalfHit 0 hshipdead
    have hchk : Game.chk_collisions E0 gHalfMid = gHalfHit := by
      show chkLoopF E0 (2 + 1) gHalfMid 0 = gHalfHit
      rw [chkLoopF_succ, if_pos (by decide), hpa]
      show chkLoopF E0 (1 + 1) gHalfHit (0 + 1) = gHalfHit
      rw [chkLoopF_succ, if_neg (by decide)]
    have hrm : Game.runManagers E0 gHalfBranch = gHalfEnd := by
      unfold Game.runManagers
      dsimp only
      rw [show ({ gHalfBranch with ship := Ship.update E0 gHalfBranch.ship } : Game) = gHalfMid
        from rfl, hchk]
      rfl
    have hb : Game.branchStep E0 keys0 gMenuHalf = gHalfBranch := rfl
    have hupd : Game.update E0 keys0 gMenuHalf = levelCheck E0 gHalfEnd := by
      rw [Game.update, hb, hrm]
    have hdead1 : (Shot.update deadShot1).sprite.is_dead = true := by
      rw [Shot.update_dead deadShot1 (by simp [deadShot1, shot1])]
      simp [deadShot1]
    have ham : (AsteroidManager.update gHalfHit.asteroid_manager).objects = [] := by
      show reap Asteroid.update (fun a => a.sprite.is_dead) gHalfHit.asteroid_manager.objects = []
      rw [show gHalfHit.asteroid_manager.objects = [deadAstHalf] from rfl]
      unfold reap
      simp [Asteroid.update, deadAstHalf]
    have hexpdead :
        (Explosion.update (mkExplosion E0 astHalf.sprite.position)).sprite.is_dead = false := by
      have h := Explosion.update_spec (mkExplosion E0 astHalf.sprite.position) (by simp)
        (by simp) (by simp) (by norm_num)
      rw [h.2.1]
      decide
    have hem : (ExplosionManager.update gHalfHit.explosion_manager).objects.length = 1 := by
      show (reap Explosion.update (fun e => e.sprite.is_dead)
        gHalfHit.explosion_manager.objects).length = 1
      rw [show gHalfHit.explosion_manager.objects = [mkExplosion E0 astHalf.sprite.position]
        from rfl]
      unfold reap
      simp [hexpdead]
    have hast0 : gHalfEnd.asteroid_manager.objects.length = 0 := by
      show (AsteroidManager.update gHalfHit.asteroid_manager).objects.length = 0
      rw [ham]
      rfl
    have hlc : levelCheck E0 gHalfEnd =
        { gHalfEnd with
            level := gHalfEnd.level + 1,
            asteroid_manager := gHalfEnd.asteroid_manager.add_asteroids E0
              (3 + (gHalfEnd.level + 1) * 2) } := by
      unfold levelCheck
      rw [if_pos hast0]
    refine ⟨?_, ?_, ?_, ?_⟩
    · rw [hupd, hlc]
      rfl
    · rw [hupd, hlc]
      show (ExplosionManager.update gHalfHit.explosion_manager).objects.length = 1
      exact hem
    · rw [hupd, hlc]
      rfl
    · rw [hupd, hlc]
      show (gHalfEnd.asteroid_manager.add_asteroids E0
        (3 + (gHalfEnd.level + 1) * 2)).objects.length = 7
      unfold AsteroidManager.add_asteroids
      rw [add_asteroidsN_length]
      rw [show gHalfEnd.asteroid_manager.objects = [] from ham]
      decide
  · -- the empty-collection scenario
    constructor
    · decide
    · show (AsteroidManager.add_asteroidsN E0 (3 + (gMenuEmpty.level + 1) * 2).toNat
        (Game.runManagers E0 (Game.branchStep E0 keys0 gMenuEmpty)).asteroid_manager).objects.length = 5
      rw [add_asteroidsN_length]
      decide

/-- Witness for claim C10: the structural part applied to the concrete
menu game with the empty collection. -/
theorem C10_witness :
    gMenuEmpty.game_state = GState.Menu ∧ keys0.space = false ∧
    Game.update E0 keys0 gMenuEmpty = levelCheck E0 (Game.runManagers E0 (menuBlink gMenuEmpty)) :=
  ⟨rfl, rfl, C10_core_runs_in_menu.1 E0 keys0 gMenuEmpty rfl rfl⟩

/-!  Fuel sufficiency for the outer collision loop: every collision kills
one live shot and appends at most two asteroids, so twice the live-shot
count plus the asteroid count minus the loop index strictly decreases at
every iteration. Hence any fuel at least that measure — in particular the
2 * shots + asteroids used by Game.chk_collisions — makes the fueled loop
exit through its index-bound test, exactly like the source loop. -/

/-- Setting a list element replaces its contribution to countP. -/
theorem countP_set_add {α : Type} (p : α → Bool) :
    ∀ (l : List α) (j : Nat) (a b : α), l[j]? = some a →
      (l.set j b).countP p + (if p a then 1 else 0) =
        l.countP p + (if p b then 1 else 0) := by
  intro l
  induction l with
  | nil => intro j a b h; simp at h
  | cons x xs ih =>
      intro j a b h
      cases j with
      | zero =>
          rw [List.getElem?_cons_zero] at h
          obtain rfl : x = a := by injection h
          rw [List.set_cons_zero, List.countP_cons, List.countP_cons]
          by_cases hb : p b <;> by_cases ha2 : p x <;> simp [hb, ha2] <;> omega
      | succ j =>
          rw [List.getElem?_cons_succ] at h
          have h2 := ih j a b h
          rw [List.set_cons_succ, List.countP_cons, List.countP_cons]
          by_cases hx : p x <;> simp [hx] <;> omega

/-- hitPair keeps the shot-list length and never increases the measure
2 * live shots + asteroid count: a collision trades one live shot for at
most two new asteroids. -/
theorem hitPair_measure (E : Env) (g : Game) (i j : Nat) :
    (hitPair E g i j).shot_manager.objects.length = g.shot_manager.objects.length ∧
    2 * liveShots (hitPair E g i j) + (hitPair E g i j).asteroid_manager.objects.length ≤
      2 * liveShots g + g.asteroid_manager.objects.length := by
  unfold hitPair
  split
  case _ a sh ha hs =>
    split
    case isTrue hcond =>
      have hshl : sh.sprite.is_dead = false := by
        simp only [Bool.and_eq_true, Bool.not_eq_true'] at hcond
        exact hcond.1.2
      have hcount := countP_set_add (fun s => !s.sprite.is_dead) g.shot_manager.objects j sh
        { sh with sprite := { sh.sprite with is_dead := true } } hs
      simp only [hshl, Bool.not_false, if_true, Bool.not_true, if_false, Bool.false_eq_true,
        Nat.add_zero] at hcount
      split
      case isTrue hsc =>
        refine ⟨by simp, ?_⟩
        unfold liveShots
        dsimp only
        rw [add_asteroid_length, add_asteroid_length, List.length_set]
        omega
      case isFalse hsc =>
        refine ⟨by simp, ?_⟩
        unfold liveShots
        dsimp only
        rw [List.length_set]
        omega
    case isFalse hcond =>
      exact ⟨rfl, le_refl _⟩
  case _ =>
    exact ⟨rfl, le_refl _⟩

/-- The inner shot loop keeps the shot-list length and never increases
the collision measure. -/
theorem shotLoopAux_measure (E : Env) (i : Nat) :
    ∀ (n j : Nat) (g : Game),
      (shotLoopAux E i n j g).shot_manager.objects.length =
        g.shot_manager.objects.length ∧
      2 * liveShots (shotLoopAux E i n j g) +
          (shotLoopAux E i n j g).asteroid_manager.objects.length ≤
        2 * liveShots g + g.asteroid_manager.objects.length := by
  intro n
  induction n with
  | zero => intro j g; exact ⟨rfl, le_refl _⟩
  | succ n ih =>
      intro j g
      rw [shotLoopAux]
      obtain ⟨ih1, ih2⟩ := ih (j + 1) (hitPair E g i j)
      obtain ⟨hp1, hp2⟩ := hitPair_measure E g i j
      exact ⟨ih1.trans hp1, ih2.trans hp2⟩

/-- The ship check never touches the shot or asteroid managers. -/
theorem shipCheck_managers (E : Env) (g : Game) (i : Nat) :
    (shipCheck E g i).shot_manager = g.shot_manager ∧
    (shipCheck E g i).asteroid_manager = g.asteroid_manager := by
  unfold shipCheck
  split
  · split
    · dsimp only
      split <;> exact ⟨rfl, rfl⟩
    · exact ⟨rfl, rfl⟩
  · exact ⟨rfl, rfl⟩

/-- One outer iteration never increases the collision measure. -/
theorem processAsteroid_measure (E : Env) (g : Game) (i : Nat) :
    2 * liveShots (processAsteroid E g i) +
        (processAsteroid E g i).asteroid_manager.objects.length ≤
      2 * liveShots g + g.asteroid_manager.objects.length := by
  obtain ⟨h1, h2⟩ := shipCheck_managers E (shotLoop E g i) i
  have h3 := (shotLoopAux_measure E i g.shot_manager.objects.length 0 g).2
  unfold processAsteroid
  unfold liveShots
  rw [h1, h2]
  exact h3

/-- Adding one unit of fuel beyond the collision measure changes
nothing. -/
theorem chkLoopF_add_one (E : Env) :
    ∀ (n : Nat) (g : Game) (i : Nat),
      2 * liveShots g + g.asteroid_manager.objects.length - i ≤ n →
      chkLoopF E (n + 1) g i = chkLoopF E n g i := by
  intro n
  induction n with
  | zero =>
      intro g i h
      rw [chkLoopF_succ, if_neg (by omega)]
      rfl
  | succ n ih =>
      intro g i h
      rw [chkLoopF_succ]
      by_cases hi : i < g.asteroid_manager.objects.length
      · rw [if_pos hi, chkLoopF_succ E n g i, if_pos hi]
        have hm := processAsteroid_measure E g i
        exact ih (processAsteroid E g i) (i + 1) (by omega)
      · rw [if_neg hi, chkLoopF_succ E n g i, if_neg hi]

/-- Any surplus fuel beyond the collision measure changes nothing. -/
theorem chkLoopF_fuel_stable (E : Env) :
    ∀ (k n : Nat) (g : Game) (i : Nat),
      2 * liveShots g + g.asteroid_manager.objects.length - i ≤ n →
      chkLoopF E (n + k) g i = chkLoopF E n g i := by
  intro k
  induction k with
  | zero => intro n g i h; rfl
  | succ k ih =>
      intro n g i h
      have hs : n + (k + 1) = n + k + 1 := by omega
      rw [hs, chkLoopF_add_one E (n + k) g i (by omega), ih n g i h]

/-- The fuel used by Game.chk_collisions always suffices: the fueled loop
computes the same result with any fuel at least 2 * shots + asteroids, so
it terminates through its index-bound test exactly like the unbounded
source loop. -/
theorem chk_collisions_fuel (E : Env) (g : Game) (n : Nat)
    (h : 2 * g.shot_manager.objects.length + g.asteroid_manager.objects.length ≤ n) :
    chkLoopF E n g 0 = Game.chk_collisions E g := by
  have hlive : liveShots g ≤ g.shot_manager.objects.length := List.countP_le_length _
  have hS : 2 * liveShots g + g.asteroid_manager.objects.length - 0 ≤
      2 * g.shot_manager.objects.length + g.asteroid_manager.objects.length := by omega
  have h1 : n = 2 * g.shot_manager.objects.length + g.asteroid_manager.objects.length +
      (n - (2 * g.shot_manager.objects.length + g.asteroid_manager.objects.length)) := by
    omega
  rw [h1, chkLoopF_fuel_stable E _ _ g 0 hS]
  rfl

end Asteroids
